import Mathlib

/-
  Verification of the delivery event-sourcing service
  (src/delivery/main.py and src/delivery/subscriber.py).

  Shallow embedding conventions:
  * A Python dict state is a record of Option fields; none models an
    absent key, and reading an absent key yields PyErr.keyError, as in
    Python.
  * Reducers from subscriber.py take the prior state as Option DState
    (Python passes None or a dict) and return Except PyErr DState:
    raising HTTPException(400, detail) is PyErr.http 400 detail.
  * Redis is modelled as Sys: the append-only event log (a list of
    saved Event records) plus the projection-cache entries written by
    redis.set. Endpoints return both the Except outcome and the
    resulting Sys, so side effects that happened before a failure are
    kept, exactly as in the running service.
  * Numbers are Int (Python ints are unbounded; every payload the
    reducers read goes through int(...) in the source).
-/

namespace EventMicro

/-- Error outcomes raised by the Python code: HTTPException with a
status code and detail, KeyError on a missing dict key, and TypeError
from misusing a builtin (for example json.loads on None). -/
inductive PyErr where
  | http (status : Nat) (detail : String)
  | keyError (key : String)
  | typeError (msg : String)
deriving DecidableEq, Repr

/-- The delivery aggregate state dict. Fields are exactly the keys the
code in subscriber.py ever writes; none models an absent key. -/
structure DState where
  id : Option String
  budget : Option Int
  notes : Option String
  status : Option String
  purchase_price : Option Int
  quantity : Option Int
  sell_price : Option Int
deriving DecidableEq, Repr

/-- The dict state the replay in build_state starts from. -/
def emptyState : DState := ⟨none, none, none, none, none, none, none⟩

/-- The JSON payload of an event, with exactly the keys the reducers and
endpoints in the source read; none models an absent key. -/
structure EventData where
  delivery_id : Option String
  budget : Option Int
  notes : Option String
  purchase_price : Option Int
  sell_price : Option Int
  quantity : Option Int
deriving DecidableEq, Repr

/-- The Event HashModel of main.py: delivery_id, type and the JSON data,
plus the created_at timestamp build_state sorts by. -/
structure Event where
  delivery_id : String
  type : String
  data : EventData
  created_at : Nat
deriving DecidableEq, Repr

/-- Payload with every key absent. -/
def emptyData : EventData := ⟨none, none, none, none, none, none⟩

/-- create_delivery from subscriber.py: ignores the prior state, reads
budget then notes from the payload, and returns a fresh ready state. -/
def create_delivery (_state : Option DState) (event : Event) :
    Except PyErr DState :=
  match event.data.budget with
  | none => .error (.keyError "budget")
  | some b =>
    match event.data.notes with
    | none => .error (.keyError "notes")
    | some n =>
      .ok ⟨some event.delivery_id, some b, some n, some "ready",
           none, none, none⟩

/-- start_delivery from subscriber.py: requires status to be ready, else
HTTPException 400; on success only status changes, to active. -/
def start_delivery (state : Option DState) (_event : Event) :
    Except PyErr DState :=
  match state with
  | none => .error (.typeError "NoneType is not subscriptable")
  | some s =>
    match s.status with
    | none => .error (.keyError "status")
    | some st =>
      if st ≠ "ready" then .error (.http 400 "Delivery already started")
      else .ok { s with status := some "active" }

/-- pickup_order from subscriber.py. The per-unit price it deducts is
read from the budget key of the payload; purchase_price is a separate
payload key recorded only after the budget check passes, matching the
evaluation order of the source. -/
def pickup_order (state : Option DState) (event : Event) :
    Except PyErr DState :=
  match state with
  | none => .error (.typeError "NoneType is not subscriptable")
  | some s =>
    match s.budget with
    | none => .error (.keyError "budget")
    | some sb =>
      match event.data.budget with
      | none => .error (.keyError "budget")
      | some p =>
        match event.data.quantity with
        | none => .error (.keyError "quantity")
        | some q =>
          let new_budget := sb - p * q
          if new_budget < 0 then .error (.http 400 "Not enough budget")
          else
            match event.data.purchase_price with
            | none => .error (.keyError "purchase_price")
            | some pp =>
              .ok { s with budget := some new_budget,
                           purchase_price := some pp,
                           quantity := some q,
                           status := some "collected" }

/-- deliver_products from subscriber.py: adds purchase_price times
quantity to the budget, subtracts quantity from the held quantity,
failing with HTTPException 400 if that would go negative; sell_price is
read only after the check, matching the source order. -/
def deliver_products (state : Option DState) (event : Event) :
    Except PyErr DState :=
  match state with
  | none => .error (.typeError "NoneType is not subscriptable")
  | some s =>
    match s.budget with
    | none => .error (.keyError "budget")
    | some sb =>
      match event.data.purchase_price with
      | none => .error (.keyError "purchase_price")
      | some pp =>
        match event.data.quantity with
        | none => .error (.keyError "quantity")
        | some q =>
          match s.quantity with
          | none => .error (.keyError "quantity")
          | some sq =>
            let new_budget := sb + pp * q
            let new_quantity := sq - q
            if new_quantity < 0 then
              .error (.http 400 "Not enough quantity")
            else
              match event.data.sell_price with
              | none => .error (.keyError "sell_price")
              | some sp =>
                .ok { s with budget := some new_budget,
                             sell_price := some sp,
                             quantity := some new_quantity,
                             status := some "delivered" }

/-- increase_budget from subscriber.py: adds the payload budget to the
state budget; no precondition, no other field touched. -/
def increase_budget (state : Option DState) (event : Event) :
    Except PyErr DState :=
  match state with
  | none => .error (.typeError "NoneType is not subscriptable")
  | some s =>
    match s.budget with
    | none => .error (.keyError "budget")
    | some sb =>
      match event.data.budget with
      | none => .error (.keyError "budget")
      | some a =>
        .ok { s with budget := some (sb + a) }

/-- The subscriptions dict of subscriber.py: event type name to reducer;
none models the KeyError a Python lookup of an unknown type raises. -/
def subscriptions (t : String) :
    Option (Option DState → Event → Except PyErr DState) :=
  if t = "CREATE_DELIVERY" then some create_delivery
  else if t = "START_DELIVERY" then some start_delivery
  else if t = "PICKUP_ORDER" then some pickup_order
  else if t = "DELIVER_PRODUCTS" then some deliver_products
  else if t = "INCREASE_BUDGET" then some increase_budget
  else none

/-- Stable insertion of an event into a list already sorted by
created_at; an equal key goes after the existing entries, as in the
stable sort Python uses. -/
def insertByCreatedAt (e : Event) : List Event → List Event
  | [] => [e]
  | x :: xs =>
    if x.created_at ≤ e.created_at then x :: insertByCreatedAt e xs
    else e :: x :: xs

/-- sorted(events, key created_at): a stable sort by created_at. -/
def sortByCreatedAt (events : List Event) : List Event :=
  events.foldl (fun acc e => insertByCreatedAt e acc) []

/-- The replay loop of build_state: thread the state through the reducer
of each event in turn, stopping at the first failure; an unknown event
type is the KeyError of the subscriptions lookup. -/
def applyEvents : List Event → DState → Except PyErr DState
  | [], s => .ok s
  | e :: rest, s =>
    match subscriptions e.type with
    | none => .error (.keyError e.type)
    | some r =>
      match r (some s) e with
      | .error err => .error err
      | .ok s2 => applyEvents rest s2

/-- build_state from main.py. It loads EVERY saved event via
Event.all_pks with no filter on the pk argument, sorts them by
created_at, and folds from the empty dict. The pk parameter is unused
before the early return; the Delivery.get block after the return is
unreachable and is not modelled. -/
def build_state (pk : String) (log : List Event) : Except PyErr DState :=
  applyEvents (sortByCreatedAt log) emptyState

/-- The redis state the delivery service touches: the saved Event
records in creation order, and the projection-cache entries written
under delivery keys by redis.set. -/
structure Sys where
  log : List Event
  cache : List (String × DState)
deriving DecidableEq, Repr

/-- redis.get on a delivery cache key. -/
def cacheGet (c : List (String × DState)) (pk : String) : Option DState :=
  match c.find? (fun kv => kv.1 == pk) with
  | none => none
  | some kv => some kv.2

/-- redis.set on a delivery cache key: overwrite any previous entry. -/
def cacheSet (c : List (String × DState)) (pk : String) (s : DState) :
    List (String × DState) :=
  (pk, s) :: c.filter (fun kv => kv.1 != pk)

/-- get_delivery_status from main.py. The source reads the cached
projection and then tests: if state is None it returns
json.loads(state), which is json.loads(None), a TypeError; only when a
cache entry IS present does it rebuild from the log and repopulate the
cache, ignoring the cached value it just read. -/
def get_delivery_status (pk : String) (sys : Sys) :
    Except PyErr DState × Sys :=
  match cacheGet sys.cache pk with
  | none =>
    (.error (.typeError "the JSON object must be str, not NoneType"), sys)
  | some _ =>
    match build_state pk sys.log with
    | .error e => (.error e, sys)
    | .ok state => (.ok state, ⟨sys.log, cacheSet sys.cache pk state⟩)

/-- The POST delivery endpoint (create) from main.py. newPk models the
fresh primary key redis_om assigns to the Delivery record, createdAt the
timestamp of the new event. The Delivery constructor reads budget then
notes from the body data (KeyError if absent); the event is saved to the
log BEFORE the reducer runs, and the reducer is called with state None. -/
def create (btype : String) (bdata : EventData) (newPk : String)
    (createdAt : Nat) (sys : Sys) : Except PyErr DState × Sys :=
  match bdata.budget with
  | none => (.error (.keyError "budget"), sys)
  | some _ =>
    match bdata.notes with
    | none => (.error (.keyError "notes"), sys)
    | some _ =>
      let event : Event := ⟨newPk, btype, bdata, createdAt⟩
      let sys1 : Sys := ⟨sys.log ++ [event], sys.cache⟩
      match subscriptions btype with
      | none => (.error (.keyError btype), sys1)
      | some r =>
        match r none event with
        | .error e => (.error e, sys1)
        | .ok state =>
          (.ok state, ⟨sys1.log, cacheSet sys1.cache newPk state⟩)

/-- The TypeError Python raises when a coroutine function awaits a
plain value, here the dict a synchronous call returned. -/
def awaitErrorDetail : String :=
  "object dict cannot be used in an await expression"

/-- The POST event endpoint (dispatch) from main.py. It reads
delivery_id from the body data and evaluates
state = await get_delivery_status(delivery_id). get_delivery_status is
a plain synchronous def returning a dict, so if the call raises, that
error propagates (with any cache write it already made kept); and
whenever the call RETURNS, awaiting the returned dict raises TypeError.
The rest of the endpoint, building the Event record, running the
reducer and writing the cache, is unreachable on every input, and the
event is in any case never saved. -/
def dispatch (btype : String) (bdata : EventData) (sys : Sys) :
    Except PyErr DState × Sys :=
  match bdata.delivery_id with
  | none => (.error (.keyError "delivery_id"), sys)
  | some did =>
    match get_delivery_status did sys with
    | (.error e, sys1) => (.error e, sys1)
    | (.ok _, sys1) => (.error (.typeError awaitErrorDetail), sys1)

/-! ### Concrete scenario events (the end-to-end scenario of the spec) -/

/-- CREATE_DELIVERY for aggregate d1 with budget 100 and notes x. -/
def ev1 : Event :=
  ⟨"d1", "CREATE_DELIVERY", ⟨none, some 100, some "x", none, none, none⟩, 0⟩

/-- START_DELIVERY for d1 with an empty payload. -/
def ev2 : Event := ⟨"d1", "START_DELIVERY", emptyData, 1⟩

/-- PICKUP_ORDER for d1 at price 10 and quantity 5: the deducted
per-unit price travels in the budget key of the payload and the
recorded purchase_price key carries the same 10. -/
def ev3 : Event :=
  ⟨"d1", "PICKUP_ORDER", ⟨none, some 10, none, some 10, none, some 5⟩, 2⟩

/-- DELIVER_PRODUCTS for d1 at price 12 and quantity 5: the added
per-unit price travels in the purchase_price key of the payload. -/
def ev4 : Event :=
  ⟨"d1", "DELIVER_PRODUCTS", ⟨none, none, none, some 12, some 12, some 5⟩, 3⟩

/-- State after ev2: active with budget 100. -/
def s2 : DState :=
  ⟨some "d1", some 100, some "x", some "active", none, none, none⟩

/-- C2: the claim says a status read with no cache entry falls back to
replaying the log and repopulates the cache. The code instead evaluates
json.loads(None) on a cache miss: with a perfectly replayable log and an
empty cache, get_delivery_status fails with a TypeError and leaves the
system untouched. -/
theorem c2_cache_miss_raises :
    get_delivery_status "d1" ⟨[ev1], []⟩ =
      (.error (.typeError "the JSON object must be str, not NoneType"),
       ⟨[ev1], []⟩) := rfl

/-- C6: pickup_order computes the prior budget minus price times
quantity, where the price is the per-unit amount the payload carries in
its budget key; it fails with the domain-rule violation exactly when
that result is negative, and on success produces that budget with
status collected, recording the payload purchase_price and quantity. -/
theorem c6_pickup_order_budget_rule (s : DState) (e : Event)
    (b p q pp : Int) (hb : s.budget = some b)
    (hp : e.data.budget = some p) (hq : e.data.quantity = some q)
    (hpp : e.data.purchase_price = some pp) :
    (b - p * q < 0 →
      pickup_order (some s) e = .error (.http 400 "Not enough budget")) ∧
    (0 ≤ b - p * q →
      pickup_order (some s) e =
        .ok { s with budget := some (b - p * q), purchase_price := some pp,
                     quantity := some q, status := some "collected" }) := by
  constructor
  · intro hneg
    simp only [pickup_order, hb, hp, hq, hpp]
    rw [if_pos hneg]
  · intro hpos
    simp only [pickup_order, hb, hp, hq, hpp]
    rw [if_neg (by omega)]

/-- C6 witness: price 10 and quantity 5 against budget 40 fails, and
against budget 60 succeeds with budget 10 and status collected. -/
theorem c6_witness :
    pickup_order
        (some ⟨some "d", some 40, none, some "ready", none, none, none⟩)
        ev3 = .error (.http 400 "Not enough budget") ∧
    pickup_order
        (some ⟨some "d", some 60, none, some "ready", none, none, none⟩)
        ev3 =
      .ok ⟨some "d", some 10, none, some "collected", some 10, some 5,
           none⟩ := by
  constructor
  · exact (c6_pickup_order_budget_rule _ ev3 40 10 5 10
      rfl rfl rfl rfl).1 (by decide)
  · exact (c6_pickup_order_budget_rule _ ev3 60 10 5 10
      rfl rfl rfl rfl).2 (by decide)

/-- C9: increase_budget always succeeds on a state carrying a budget,
adding the payload amount to it; the record-update form of the result
states that every other field, status included, is unchanged. -/
theorem c9_increase_budget_frame (s : DState) (e : Event) (b a : Int)
    (hb : s.budget = some b) (ha : e.data.budget = some a) :
    increase_budget (some s) e = .ok { s with budget := some (b + a) } := by
  simp only [increase_budget, hb, ha]

/-- C9 witness: adding 7 to the active scenario state with budget 100
gives budget 107 with every other field as before. -/
theorem c9_witness :
    increase_budget (some s2)
        ⟨"d1", "INCREASE_BUDGET", ⟨none, some 7, none, none, none, none⟩, 5⟩ =
      .ok ⟨some "d1", some 107, some "x", some "active", none, none,
           none⟩ :=
  c9_increase_budget_frame s2 _ 100 7 rfl rfl

/-- C8 counterexample: the claim says deriving state over an empty event
sequence yields a distinct aggregate-not-found outcome, never an
ordinary state such as the empty map. The code returns exactly the
ordinary empty map as a success value. -/
theorem c8_counterexample : build_state "missing" [] = .ok emptyState := rfl

/-- C8 amended: for every aggregate id with no events, build_state
succeeds with the ordinary empty state, and a non-create command against
such an aggregate fails with the cache-miss TypeError, not a NotFound. -/
theorem c8_empty_log_is_ordinary_empty_state (pk : String) :
    build_state pk [] = .ok emptyState ∧
    (dispatch "START_DELIVERY" ⟨some pk, none, none, none, none, none⟩
        ⟨[], []⟩).1 =
      .error (.typeError "the JSON object must be str, not NoneType") :=
  ⟨rfl, rfl⟩

/-- C8 witness: the amended statement at the concrete aggregate id d9. -/
theorem c8_witness :
    build_state "d9" [] = .ok emptyState ∧
    (dispatch "START_DELIVERY" ⟨some "d9", none, none, none, none, none⟩
        ⟨[], []⟩).1 =
      .error (.typeError "the JSON object must be str, not NoneType") :=
  c8_empty_log_is_ordinary_empty_state "d9"

/-- C10: each non-create reducer reads status, budget or quantity from
the prior state unguarded: on the empty map it raises a KeyError, not a
domain-rule violation, and replaying a sequence that does not begin with
CREATE_DELIVERY hits exactly that KeyError. -/
theorem c10_missing_keys_raise_keyerror :
    start_delivery (some emptyState) ev2 = .error (.keyError "status") ∧
    pickup_order (some emptyState) ev3 = .error (.keyError "budget") ∧
    deliver_products (some emptyState) ev4 = .error (.keyError "budget") ∧
    increase_budget (some emptyState)
        ⟨"d1", "INCREASE_BUDGET", ⟨none, some 5, none, none, none, none⟩, 9⟩ =
      .error (.keyError "budget") ∧
    applyEvents [ev2] emptyState = .error (.keyError "status") :=
  ⟨rfl, rfl, rfl, rfl, rfl⟩

end EventMicro
